import Mathlib

/-!
Verification of the scheduled-transaction recurrence engine of the
monika-backend repository.

The embedded code is `app/repository.py` (`get_scheduled_transactions_by_frequency`
with its inner `get_period_start_date` and the negated-EXISTS condition
`transaction_exists_condition`) and `app/date_manager.py` (`today`).

Calendar model: Python `datetime` restricted to day granularity for the
schedule window and the query parameter `today` (the spec's Clock normalizes
to midnight), and with an explicit time-of-day on `Transaction.created_at`
so that the SQL `date()` truncation in the query is meaningful.
Python `datetime.replace` builds a new value and validates every field
(`ValueError` outside `MINYEAR = 1 .. MAXYEAR = 9999`, or on a day that does
not exist in the month); `datetime - timedelta` raises `OverflowError` when
the result leaves that range.  Both failure modes are embedded as `none`.
-/

/-- Gregorian calendar date at day granularity (the value of the SQL
`date()` function and of the schedule window bounds). -/
structure Date where
  year : Nat
  month : Nat
  day : Nat
deriving DecidableEq, Repr

/-- Python `calendar` leap-year rule, as used by `datetime` validation. -/
def isLeapYear (y : Nat) : Bool :=
  (y % 4 == 0 && y % 100 != 0) || y % 400 == 0

/-- Number of days of month `m` of year `y`, as `datetime` validates it. -/
def daysInMonth (y m : Nat) : Nat :=
  if m = 2 then (if isLeapYear y then 29 else 28)
  else if m = 4 ∨ m = 6 ∨ m = 9 ∨ m = 11 then 30
  else 31

/-- A field triple that Python `datetime` accepts: `MINYEAR = 1`,
`MAXYEAR = 9999`, month in `1..12`, day in `1..daysInMonth`. -/
def Date.isValid (d : Date) : Bool :=
  1 ≤ d.year && d.year ≤ 9999 &&
  1 ≤ d.month && d.month ≤ 12 &&
  1 ≤ d.day && d.day ≤ daysInMonth d.year d.month

/-- Date comparison (`<=` on Python dates / SQL DATE): lexicographic on
(year, month, day). -/
def Date.le (a b : Date) : Bool :=
  a.year < b.year ||
    (a.year == b.year &&
      (a.month < b.month || (a.month == b.month && a.day ≤ b.day)))

/-- The day before `d`; `none` when `d` is 0001-01-01 (Python
`OverflowError`: result would precede `datetime.min`). -/
def Date.pred (d : Date) : Option Date :=
  if 1 < d.day then some ⟨d.year, d.month, d.day - 1⟩
  else if 1 < d.month then
    some ⟨d.year, d.month - 1, daysInMonth d.year (d.month - 1)⟩
  else if 1 < d.year then some ⟨d.year - 1, 12, 31⟩
  else none

/-- Python `d - timedelta(days=n)`: `none` when the result leaves the
supported range. -/
def Date.subDays (d : Date) : Nat → Option Date
  | 0 => some d
  | n + 1 => (Date.pred d).bind fun e => Date.subDays e n

/-- The day after `d` (total; used only to state date arithmetic facts). -/
def Date.succ (d : Date) : Date :=
  if d.day < daysInMonth d.year d.month then ⟨d.year, d.month, d.day + 1⟩
  else if d.month < 12 then ⟨d.year, d.month + 1, 1⟩
  else ⟨d.year + 1, 1, 1⟩

/-- Python `d.replace(month=m)`: the new field triple is validated as a
whole; `ValueError` (here `none`) when it is not a real date. -/
def Date.replaceMonth (d : Date) (m : Nat) : Option Date :=
  let e : Date := ⟨d.year, m, d.day⟩
  if e.isValid then some e else none

/-- Python `d.replace(year=y)`: same validation as `replaceMonth`. -/
def Date.replaceYear (d : Date) (y : Nat) : Option Date :=
  let e : Date := ⟨y, d.month, d.day⟩
  if e.isValid then some e else none

/-- Python `datetime` value carrying a time of day and an optional
UTC tzinfo flag (`tzutc = true` models `tzinfo = timezone.utc`). -/
structure PyDateTime where
  year : Nat
  month : Nat
  day : Nat
  hour : Nat
  minute : Nat
  second : Nat
  microsecond : Nat
  tzutc : Bool
deriving DecidableEq, Repr

/-- SQL `date()` truncation of a datetime (`func.date` in the query). -/
def PyDateTime.toDate (t : PyDateTime) : Date :=
  ⟨t.year, t.month, t.day⟩

/-- Python `datetime.now(timezone.utc)`: the ambient instant expressed in
UTC, with `tzinfo = timezone.utc` attached.  The instant is a parameter of
the embedding. -/
def datetime_now_utc (instant : PyDateTime) : PyDateTime :=
  { instant with tzutc := true }

/-- Embeds `app/date_manager.py` `today()`:
`datetime.now(timezone.utc).replace(hour=0, minute=0, second=0, microsecond=0)`. -/
def DateManager.today (instant : PyDateTime) : PyDateTime :=
  { datetime_now_utc instant with
    hour := 0, minute := 0, second := 0, microsecond := 0 }

/-- The `Frequency` enum of `app/utils/enums.py`. -/
def Frequency.ONCE : Nat := 1

/-- Frequency enum value DAILY. -/
def Frequency.DAILY : Nat := 2

/-- Frequency enum value WEEKLY. -/
def Frequency.WEEKLY : Nat := 3

/-- Frequency enum value MONTHLY. -/
def Frequency.MONTHLY : Nat := 4

/-- Frequency enum value YEARLY. -/
def Frequency.YEARLY : Nat := 5

/-- Row of `models.TransactionScheduled`, restricted to the columns the
recurrence query reads (window bounds at day granularity). -/
structure TransactionScheduled where
  id : Nat
  account_id : Nat
  frequency_id : Nat
  date_start : Date
  date_end : Date
  is_active : Bool
deriving DecidableEq, Repr

/-- Row of `models.Transaction`, restricted to the columns the
recurrence query reads. -/
structure Transaction where
  id : Nat
  account_id : Nat
  scheduled_transaction_id : Option Nat
  created_at : PyDateTime
deriving DecidableEq, Repr

/-- The persistent store the query runs against. -/
structure Store where
  scheduled : List TransactionScheduled
  transactions : List Transaction
deriving DecidableEq, Repr

/-- Embeds the inner `get_period_start_date` of
`get_scheduled_transactions_by_frequency` (repository.py lines 190-201):
`match frequency_id:` DAILY | ONCE return today; WEEKLY return
`today - timedelta(days=7)`; MONTHLY return
`today.replace(month=today.month - 1)`; YEARLY return
`today.replace(year=today.year - 1)`; after the match, `return today`. -/
def get_period_start_date (frequency_id : Nat) (today : Date) : Option Date :=
  if frequency_id = Frequency.DAILY ∨ frequency_id = Frequency.ONCE then
    some today
  else if frequency_id = Frequency.WEEKLY then
    today.subDays 7
  else if frequency_id = Frequency.MONTHLY then
    today.replaceMonth (today.month - 1)
  else if frequency_id = Frequency.YEARLY then
    today.replaceYear (today.year - 1)
  else
    some today

/-- The EXISTS subquery of repository.py lines 203-210 (before the leading
`~`): a `Transaction` row matching the correlated schedule id, whose
`date(created_at)` equals `date(today)` and is `>=` the period start. -/
def occurrence_check (transactions : List Transaction) (schedule_id : Nat)
    (period_start today : Date) : Bool :=
  transactions.any fun t =>
    t.scheduled_transaction_id == some schedule_id &&
    t.created_at.toDate == today &&
    Date.le period_start t.created_at.toDate

/-- Embeds `transaction_exists_condition` (repository.py lines 203-210):
the `~exists(...)` predicate placed in the WHERE clause. -/
def transaction_exists_condition (transactions : List Transaction)
    (schedule_id : Nat) (period_start today : Date) : Bool :=
  ! occurrence_check transactions schedule_id period_start today

/-- Embeds `get_scheduled_transactions_by_frequency` (repository.py lines
169-221).  `get_period_start_date(frequency_id)` is evaluated while the
WHERE clause is built, so a `ValueError` / `OverflowError` there (`none`)
aborts the call before any row is returned.  Otherwise the SELECT filters
the scheduled rows by the five-conjunct predicate in source order. -/
def get_scheduled_transactions_by_frequency (store : Store)
    (frequency_id : Nat) (today : Date) : Option (List TransactionScheduled) :=
  match get_period_start_date frequency_id today with
  | none => none
  | some period_start =>
    some (store.scheduled.filter fun s =>
      Date.le s.date_start today &&
      Date.le today s.date_end &&
      s.is_active &&
      s.frequency_id == frequency_id &&
      transaction_exists_condition store.transactions s.id period_start today)

/-- State-passing form of the same call: the only session interaction is
`await self.session.execute(query)` on a SELECT followed by
`result.scalars().all()`, a read that leaves the store as it was. -/
def run_get_scheduled_transactions_by_frequency (store : Store)
    (frequency_id : Nat) (today : Date) :
    Option (Store × List TransactionScheduled) :=
  match get_scheduled_transactions_by_frequency store frequency_id today with
  | none => none
  | some rows => some (store, rows)

/-- The predicate the spec says the existence check reduces to:
"was a transaction already created today for this schedule" — same
correlated subquery without the period-start lower bound. -/
def created_today_check (transactions : List Transaction) (schedule_id : Nat)
    (today : Date) : Bool :=
  transactions.any fun t =>
    t.scheduled_transaction_id == some schedule_id &&
    t.created_at.toDate == today

/-! Date arithmetic lemmas. -/

/-- Unfolding of the date order into arithmetic. -/
theorem Date.le_iff (a b : Date) :
    Date.le a b = true ↔
      a.year < b.year ∨
        (a.year = b.year ∧
          (a.month < b.month ∨ (a.month = b.month ∧ a.day ≤ b.day))) := by
  simp [Date.le]

/-- The date order is reflexive. -/
theorem Date.le_refl (d : Date) : Date.le d d = true := by
  rw [Date.le_iff]; omega

/-- The date order is transitive. -/
theorem Date.le_trans {a b c : Date} (h₁ : Date.le a b = true)
    (h₂ : Date.le b c = true) : Date.le a c = true := by
  rw [Date.le_iff] at h₁ h₂ ⊢; omega

/-- Every month has at least 28 days. -/
theorem daysInMonth_pos (y m : Nat) : 28 ≤ daysInMonth y m := by
  unfold daysInMonth
  split
  · split <;> omega
  · split <;> omega

/-- December has 31 days. -/
theorem daysInMonth_twelve (y : Nat) : daysInMonth y 12 = 31 := by
  simp [daysInMonth]


/-- The previous day is strictly below the day itself. -/
theorem Date.pred_lt {d e : Date} (h : Date.pred d = some e) :
    Date.le d e = false ∧ Date.le e d = true := by
  obtain ⟨y, m, dd⟩ := d
  simp only [Date.pred] at h
  split at h
  · cases h
    constructor <;> simp [Date.le] <;> omega
  · split at h
    · cases h
      constructor <;> simp [Date.le] <;> omega
    · split at h
      · cases h
        constructor <;> simp [Date.le] <;> omega
      · cases h

/-- On a valid date, the previous day is valid and `succ` undoes `pred`. -/
theorem Date.pred_succ {d e : Date} (hv : d.isValid = true)
    (h : Date.pred d = some e) : e.isValid = true ∧ Date.succ e = d := by
  obtain ⟨y, m, dd⟩ := d
  simp only [Date.isValid, Bool.and_eq_true, decide_eq_true_eq] at hv
  simp only [Date.pred] at h
  split at h
  · cases h
    have hlt : dd - 1 < daysInMonth y m := by omega
    constructor
    · simp [Date.isValid] <;> omega
    · simp [Date.succ, hlt] <;> omega
  · split at h
    · cases h
      have h28 := daysInMonth_pos y (m - 1)
      constructor
      · simp [Date.isValid] <;> omega
      · have h1 : ¬ daysInMonth y (m - 1) < daysInMonth y (m - 1) := by omega
        have h2 : m - 1 < 12 := by omega
        simp [Date.succ, h1, h2] <;> omega
    · split at h
      · cases h
        have h31 := daysInMonth_twelve (y - 1)
        constructor
        · simp [Date.isValid, h31] <;> omega
        · simp [Date.succ, h31] <;> omega
      · cases h

/-- The next day never sorts at or below the day itself. -/
theorem Date.not_succ_le (d : Date) : Date.le (Date.succ d) d = false := by
  obtain ⟨y, m, dd⟩ := d
  simp only [Date.succ]
  split
  · simp [Date.le]
  · split
    · simp [Date.le]
    · simp [Date.le]

/-- Subtracting days never moves a date forward. -/
theorem Date.subDays_le {d p : Date} {n : Nat} (h : d.subDays n = some p) :
    Date.le p d = true := by
  induction n generalizing d with
  | zero =>
    simp only [Date.subDays] at h
    cases h
    exact Date.le_refl p
  | succ k ih =>
    simp only [Date.subDays, Option.bind_eq_some] at h
    obtain ⟨e, he, hrec⟩ := h
    exact Date.le_trans (ih hrec) (Date.pred_lt he).2

/-- A successful `n`-day subtraction from a valid date lands on a valid
date, and `n` applications of `succ` lead back. -/
theorem Date.subDays_succ_iterate {d p : Date} {n : Nat}
    (hv : d.isValid = true) (h : d.subDays n = some p) :
    p.isValid = true ∧ Date.succ^[n] p = d := by
  induction n generalizing d with
  | zero =>
    simp only [Date.subDays] at h
    cases h
    exact ⟨hv, rfl⟩
  | succ k ih =>
    simp only [Date.subDays, Option.bind_eq_some] at h
    obtain ⟨e, he, hrec⟩ := h
    obtain ⟨hev, hsucc⟩ := Date.pred_succ hv he
    obtain ⟨hpv, hit⟩ := ih hev hrec
    exact ⟨hpv, by rw [Function.iterate_succ_apply', hit, hsucc]⟩

/-- Whenever the period-start computation succeeds, its result is at or
before `today` — for every frequency id. -/
theorem get_period_start_date_le {frequency_id : Nat} {today p : Date}
    (h : get_period_start_date frequency_id today = some p) :
    Date.le p today = true := by
  unfold get_period_start_date at h
  split at h
  · cases h; exact Date.le_refl today
  · split at h
    · exact Date.subDays_le h
    · split at h
      · simp only [Date.replaceMonth] at h
        split at h
        · rename_i hval
          cases h
          simp only [Date.isValid, Bool.and_eq_true, decide_eq_true_eq] at hval
          simp [Date.le] at hval ⊢
          omega
        · cases h
      · split at h
        · simp only [Date.replaceYear] at h
          split at h
          · rename_i hval
            cases h
            simp only [Date.isValid, Bool.and_eq_true, decide_eq_true_eq] at hval
            simp [Date.le] at hval ⊢
            omega
          · cases h
        · cases h; exact Date.le_refl today

/-- When the period start is defined the query returns the filtered rows. -/
theorem get_scheduled_eq {store : Store} {fid : Nat} {today p : Date}
    (hp : get_period_start_date fid today = some p) :
    get_scheduled_transactions_by_frequency store fid today =
      some (store.scheduled.filter fun s =>
        Date.le s.date_start today &&
        Date.le today s.date_end &&
        s.is_active &&
        (s.frequency_id == fid) &&
        transaction_exists_condition store.transactions s.id p today) := by
  simp [get_scheduled_transactions_by_frequency, hp]

/-- Membership in the query result, unfolded to the five conjuncts. -/
theorem mem_get_scheduled {store : Store} {fid : Nat} {today p : Date}
    {l : List TransactionScheduled}
    (hp : get_period_start_date fid today = some p)
    (hq : get_scheduled_transactions_by_frequency store fid today = some l)
    (S : TransactionScheduled) :
    S ∈ l ↔ S ∈ store.scheduled ∧ Date.le S.date_start today = true ∧
      Date.le today S.date_end = true ∧ S.is_active = true ∧
      S.frequency_id = fid ∧
      occurrence_check store.transactions S.id p today = false := by
  rw [get_scheduled_eq hp] at hq
  injection hq with hq
  subst hq
  simp only [List.mem_filter, transaction_exists_condition, Bool.and_eq_true,
    beq_iff_eq, Bool.not_eq_true']
  tauto

/-- C8: the Clock operation `today()` always returns the current instant
normalized to midnight in the UTC reference timezone: hour, minute, second
and microsecond are 0 and the UTC tzinfo is attached, for every invocation. -/
theorem C8_clock_midnight_utc (instant : PyDateTime) :
    (DateManager.today instant).hour = 0 ∧
    (DateManager.today instant).minute = 0 ∧
    (DateManager.today instant).second = 0 ∧
    (DateManager.today instant).microsecond = 0 ∧
    (DateManager.today instant).tzutc = true :=
  ⟨rfl, rfl, rfl, rfl, rfl⟩

/-- C7: `get_due_schedules` is a pure read — in the state-passing embedding
the store after the call equals the store before it, and the returned rows
are exactly the query's value on the unchanged store. -/
theorem C7_pure_read (store : Store) (fid : Nat) (today : Date)
    (store' : Store) (l : List TransactionScheduled)
    (h : run_get_scheduled_transactions_by_frequency store fid today =
      some (store', l)) :
    store'.scheduled = store.scheduled ∧
    store'.transactions = store.transactions ∧
    get_scheduled_transactions_by_frequency store fid today = some l := by
  unfold run_get_scheduled_transactions_by_frequency at h
  split at h
  · cases h
  · rename_i rows hr
    injection h with h
    injection h with h1 h2
    subst h1
    subst h2
    exact ⟨rfl, rfl, hr⟩

/-- Witness for C7 at a concrete store, frequency and date. -/
theorem C7_pure_read_witness :
    run_get_scheduled_transactions_by_frequency ⟨[], []⟩ 2 ⟨2024, 3, 10⟩ =
      some (⟨[], []⟩, []) ∧
    ((⟨[], []⟩ : Store).scheduled = (⟨[], []⟩ : Store).scheduled ∧
     (⟨[], []⟩ : Store).transactions = (⟨[], []⟩ : Store).transactions ∧
     get_scheduled_transactions_by_frequency ⟨[], []⟩ 2 ⟨2024, 3, 10⟩ =
       some []) :=
  ⟨by decide, C7_pure_read ⟨[], []⟩ 2 ⟨2024, 3, 10⟩ ⟨[], []⟩ [] (by decide)⟩

/-- C3: the Frequency Policy maps ONCE and DAILY to `today`, WEEKLY to
`today` minus 7 days (seven forward steps lead back to `today`), MONTHLY to
`today` with the month decremented by 1 and the day unchanged, and YEARLY
to `today` with the year decremented by 1. -/
theorem C3_frequency_policy (today : Date) (hv : today.isValid = true) :
    get_period_start_date Frequency.ONCE today = some today ∧
    get_period_start_date Frequency.DAILY today = some today ∧
    (∀ p, get_period_start_date Frequency.WEEKLY today = some p →
      Date.succ^[7] p = today) ∧
    (∀ p, get_period_start_date Frequency.MONTHLY today = some p →
      p = ⟨today.year, today.month - 1, today.day⟩) ∧
    (∀ p, get_period_start_date Frequency.YEARLY today = some p →
      p = ⟨today.year - 1, today.month, today.day⟩) := by
  refine ⟨rfl, rfl, ?_, ?_, ?_⟩
  · intro p hp
    simp only [get_period_start_date, Frequency.WEEKLY, Frequency.DAILY,
      Frequency.ONCE] at hp
    norm_num at hp
    exact (Date.subDays_succ_iterate hv hp).2
  · intro p hp
    simp only [get_period_start_date, Frequency.MONTHLY, Frequency.WEEKLY,
      Frequency.DAILY, Frequency.ONCE] at hp
    norm_num [Date.replaceMonth] at hp
    exact hp.2.symm
  · intro p hp
    simp only [get_period_start_date, Frequency.YEARLY, Frequency.MONTHLY,
      Frequency.WEEKLY, Frequency.DAILY, Frequency.ONCE] at hp
    norm_num [Date.replaceYear] at hp
    exact hp.2.symm

/-- Witness for C3 at today = 2024-03-10. -/
theorem C3_frequency_policy_witness :
    (⟨2024, 3, 10⟩ : Date).isValid = true ∧
    (get_period_start_date Frequency.ONCE ⟨2024, 3, 10⟩ = some ⟨2024, 3, 10⟩ ∧
     get_period_start_date Frequency.DAILY ⟨2024, 3, 10⟩ = some ⟨2024, 3, 10⟩ ∧
     (∀ p, get_period_start_date Frequency.WEEKLY ⟨2024, 3, 10⟩ = some p →
       Date.succ^[7] p = ⟨2024, 3, 10⟩) ∧
     (∀ p, get_period_start_date Frequency.MONTHLY ⟨2024, 3, 10⟩ = some p →
       p = ⟨2024, 2, 10⟩) ∧
     (∀ p, get_period_start_date Frequency.YEARLY ⟨2024, 3, 10⟩ = some p →
       p = ⟨2023, 3, 10⟩)) :=
  ⟨by decide, C3_frequency_policy ⟨2024, 3, 10⟩ (by decide)⟩

/-- C4: given a defined period start, the row predicate of the existence
check — creation date equals today AND creation date at or after the period
start — is equivalent to the creation-date-equals-today predicate alone,
because the period start never exceeds today. -/
theorem C4_redundant_lower_bound (fid : Nat) (today p : Date)
    (transactions : List Transaction) (schedule_id : Nat)
    (hp : get_period_start_date fid today = some p) :
    occurrence_check transactions schedule_id p today =
      created_today_check transactions schedule_id today := by
  have hle := get_period_start_date_le hp
  unfold occurrence_check created_today_check
  induction transactions with
  | nil => rfl
  | cons t ts ih =>
    simp only [List.any_cons, ih]
    congr 1
    cases hb : (t.created_at.toDate == today) with
    | false => simp [hb]
    | true =>
      have h3 : Date.le p t.created_at.toDate = true := by
        rw [beq_iff_eq] at hb
        rw [hb]
        exact hle
      simp [hb, h3]

/-- Witness for C4: WEEKLY at 2024-03-10 with one stored transaction. -/
theorem C4_redundant_lower_bound_witness :
    get_period_start_date Frequency.WEEKLY ⟨2024, 3, 10⟩ =
      some ⟨2024, 3, 3⟩ ∧
    occurrence_check
        [⟨1, 1, some 5, ⟨2024, 3, 10, 9, 30, 0, 0, false⟩⟩] 5
        ⟨2024, 3, 3⟩ ⟨2024, 3, 10⟩ =
      created_today_check
        [⟨1, 1, some 5, ⟨2024, 3, 10, 9, 30, 0, 0, false⟩⟩] 5
        ⟨2024, 3, 10⟩ :=
  ⟨by decide,
    C4_redundant_lower_bound Frequency.WEEKLY ⟨2024, 3, 10⟩ ⟨2024, 3, 3⟩
      [⟨1, 1, some 5, ⟨2024, 3, 10, 9, 30, 0, 0, false⟩⟩] 5 (by decide)⟩

/-- C1: for every enum frequency and every today with a defined period
start, the query returns a schedule iff it is stored, its window contains
today, it is active, its frequency matches, and the occurrence existence
check does not hold; schedules starting or ending exactly today are
returned when the other conjuncts hold, and schedules starting tomorrow or
ending yesterday are not. -/
theorem C1_due_selection (store : Store) (fid : Nat) (today p : Date)
    (l : List TransactionScheduled)
    (hf : fid = Frequency.ONCE ∨ fid = Frequency.DAILY ∨
      fid = Frequency.WEEKLY ∨ fid = Frequency.MONTHLY ∨ fid = Frequency.YEARLY)
    (hp : get_period_start_date fid today = some p)
    (hq : get_scheduled_transactions_by_frequency store fid today = some l) :
    (∀ S, S ∈ l ↔ S ∈ store.scheduled ∧ Date.le S.date_start today = true ∧
      Date.le today S.date_end = true ∧ S.is_active = true ∧
      S.frequency_id = fid ∧
      occurrence_check store.transactions S.id p today = false) ∧
    (∀ S, S ∈ store.scheduled → S.date_start = today →
      Date.le today S.date_end = true → S.is_active = true →
      S.frequency_id = fid →
      occurrence_check store.transactions S.id p today = false → S ∈ l) ∧
    (∀ S, S ∈ store.scheduled → S.date_end = today →
      Date.le S.date_start today = true → S.is_active = true →
      S.frequency_id = fid →
      occurrence_check store.transactions S.id p today = false → S ∈ l) ∧
    (∀ S, S.date_start = Date.succ today → S ∉ l) ∧
    (∀ S t0, Date.pred today = some t0 → S.date_end = t0 → S ∉ l) := by
  have hmem := mem_get_scheduled hp hq
  refine ⟨hmem, ?_, ?_, ?_, ?_⟩
  · intro S hS h1 h2 h3 h4 h5
    exact (hmem S).mpr ⟨hS, by rw [h1]; exact Date.le_refl today, h2, h3, h4, h5⟩
  · intro S hS h1 h2 h3 h4 h5
    exact (hmem S).mpr ⟨hS, h2, by rw [h1]; exact Date.le_refl today, h3, h4, h5⟩
  · intro S h1 hin
    have hcon := ((hmem S).mp hin).2.1
    rw [h1, Date.not_succ_le today] at hcon
    exact Bool.false_ne_true hcon
  · intro S t0 hpred h1 hin
    have hcon := ((hmem S).mp hin).2.2.1
    rw [h1, (Date.pred_lt hpred).1] at hcon
    exact Bool.false_ne_true hcon

/-- Witness for C1: DAILY, today = 2024-03-10, one stored schedule. -/
theorem C1_due_selection_witness :
    get_period_start_date 2 ⟨2024, 3, 10⟩ = some ⟨2024, 3, 10⟩ ∧
    get_scheduled_transactions_by_frequency
        ⟨[⟨1, 1, 2, ⟨2024, 3, 1⟩, ⟨2024, 3, 31⟩, true⟩], []⟩ 2 ⟨2024, 3, 10⟩ =
      some [⟨1, 1, 2, ⟨2024, 3, 1⟩, ⟨2024, 3, 31⟩, true⟩] ∧
    (⟨1, 1, 2, ⟨2024, 3, 1⟩, ⟨2024, 3, 31⟩, true⟩ : TransactionScheduled) ∈
      [(⟨1, 1, 2, ⟨2024, 3, 1⟩, ⟨2024, 3, 31⟩, true⟩ : TransactionScheduled)] :=
  ⟨by decide, by decide,
    ((C1_due_selection
        ⟨[⟨1, 1, 2, ⟨2024, 3, 1⟩, ⟨2024, 3, 31⟩, true⟩], []⟩ 2
        ⟨2024, 3, 10⟩ ⟨2024, 3, 10⟩
        [⟨1, 1, 2, ⟨2024, 3, 1⟩, ⟨2024, 3, 31⟩, true⟩]
        (by decide) (by decide) (by decide)).1
      ⟨1, 1, 2, ⟨2024, 3, 1⟩, ⟨2024, 3, 31⟩, true⟩).mpr
      (by decide)⟩

/-- C2: a stored transaction linked to schedule S whose creation date is
today blocks S from the result of the query at S's own frequency. -/
theorem C2_no_duplicate (store : Store) (S : TransactionScheduled)
    (today : Date) (l : List TransactionScheduled) (t : Transaction)
    (ht : t ∈ store.transactions)
    (hid : t.scheduled_transaction_id = some S.id)
    (hd : t.created_at.toDate = today)
    (hq : get_scheduled_transactions_by_frequency store S.frequency_id today =
      some l) :
    S ∉ l := by
  intro hS
  cases hgp : get_period_start_date S.frequency_id today with
  | none => simp [get_scheduled_transactions_by_frequency, hgp] at hq
  | some p =>
    have hocc := ((mem_get_scheduled hgp hq S).mp hS).2.2.2.2.2
    have htrue : occurrence_check store.transactions S.id p today = true := by
      unfold occurrence_check
      rw [List.any_eq_true]
      refine ⟨t, ht, ?_⟩
      simp [hid, hd, get_period_start_date_le hgp]
    rw [htrue] at hocc
    exact Bool.false_ne_true hocc.symm

/-- Witness for C2: the spec's WEEKLY scenario, schedule B blocked by a
transaction created on 2024-03-10. -/
theorem C2_no_duplicate_witness :
    (⟨7, 1, some 2, ⟨2024, 3, 10, 0, 0, 0, 0, true⟩⟩ : Transaction) ∈
      [(⟨7, 1, some 2, ⟨2024, 3, 10, 0, 0, 0, 0, true⟩⟩ : Transaction)] ∧
    get_scheduled_transactions_by_frequency
        ⟨[⟨2, 1, 3, ⟨2024, 1, 1⟩, ⟨2024, 12, 31⟩, true⟩],
         [⟨7, 1, some 2, ⟨2024, 3, 10, 0, 0, 0, 0, true⟩⟩]⟩ 3 ⟨2024, 3, 10⟩ =
      some [] ∧
    (⟨2, 1, 3, ⟨2024, 1, 1⟩, ⟨2024, 12, 31⟩, true⟩ : TransactionScheduled) ∉
      ([] : List TransactionScheduled) :=
  ⟨by decide, by decide,
    C2_no_duplicate
      ⟨[⟨2, 1, 3, ⟨2024, 1, 1⟩, ⟨2024, 12, 31⟩, true⟩],
       [⟨7, 1, some 2, ⟨2024, 3, 10, 0, 0, 0, 0, true⟩⟩]⟩
      ⟨2, 1, 3, ⟨2024, 1, 1⟩, ⟨2024, 12, 31⟩, true⟩ ⟨2024, 3, 10⟩ []
      ⟨7, 1, some 2, ⟨2024, 3, 10, 0, 0, 0, 0, true⟩⟩
      (by decide) (by decide) (by decide) (by decide)⟩

/-- C5: after inserting, for every returned schedule, a transaction linked
to it and created today, re-running the same query yields the empty list. -/
theorem C5_idempotent_rerun (store store2 : Store) (fid : Nat) (today : Date)
    (l : List TransactionScheduled) (newTxs : List Transaction)
    (hq : get_scheduled_transactions_by_frequency store fid today = some l)
    (hcover : ∀ S ∈ l, ∃ t ∈ newTxs,
      t.scheduled_transaction_id = some S.id ∧ t.created_at.toDate = today)
    (hs : store2.scheduled = store.scheduled)
    (ht : store2.transactions = store.transactions ++ newTxs) :
    get_scheduled_transactions_by_frequency store2 fid today = some [] := by
  cases hgp : get_period_start_date fid today with
  | none => simp [get_scheduled_transactions_by_frequency, hgp] at hq
  | some p =>
    rw [get_scheduled_eq hgp, hs, ht, Option.some.injEq,
      List.filter_eq_nil_iff]
    intro S hS hpred
    simp only [Bool.and_eq_true, beq_iff_eq, transaction_exists_condition,
      Bool.not_eq_true'] at hpred
    obtain ⟨⟨⟨⟨h1, h2⟩, h3⟩, h4⟩, h5⟩ := hpred
    have hoccold : occurrence_check store.transactions S.id p today = false := by
      unfold occurrence_check at h5 ⊢
      rw [List.any_append] at h5
      exact (Bool.or_eq_false_iff.mp h5).1
    have hLmem : S ∈ l :=
      (mem_get_scheduled hgp hq S).mpr ⟨hS, h1, h2, h3, h4, hoccold⟩
    obtain ⟨t, htmem, hid, hd⟩ := hcover S hLmem
    have hnew : occurrence_check newTxs S.id p today = true := by
      unfold occurrence_check
      rw [List.any_eq_true]
      refine ⟨t, htmem, ?_⟩
      simp [hid, hd, get_period_start_date_le hgp]
    unfold occurrence_check at h5 hnew
    rw [List.any_append, hnew, Bool.or_true] at h5
    exact Bool.false_ne_true h5.symm

/-- Witness for C5: the spec's literal DAILY scenario (schedule A due on
2024-03-10, then materialized). -/
theorem C5_idempotent_rerun_witness :
    get_scheduled_transactions_by_frequency
        ⟨[⟨1, 1, 2, ⟨2024, 3, 1⟩, ⟨2024, 3, 31⟩, true⟩], []⟩ 2 ⟨2024, 3, 10⟩ =
      some [⟨1, 1, 2, ⟨2024, 3, 1⟩, ⟨2024, 3, 31⟩, true⟩] ∧
    (∀ S ∈ [(⟨1, 1, 2, ⟨2024, 3, 1⟩, ⟨2024, 3, 31⟩, true⟩ : TransactionScheduled)],
      ∃ t ∈ [(⟨9, 1, some 1, ⟨2024, 3, 10, 0, 0, 0, 0, true⟩⟩ : Transaction)],
        t.scheduled_transaction_id = some S.id ∧
        t.created_at.toDate = ⟨2024, 3, 10⟩) ∧
    get_scheduled_transactions_by_frequency
        ⟨[⟨1, 1, 2, ⟨2024, 3, 1⟩, ⟨2024, 3, 31⟩, true⟩],
         [⟨9, 1, some 1, ⟨2024, 3, 10, 0, 0, 0, 0, true⟩⟩]⟩ 2 ⟨2024, 3, 10⟩ =
      some [] :=
  ⟨by decide, by decide,
    C5_idempotent_rerun
      ⟨[⟨1, 1, 2, ⟨2024, 3, 1⟩, ⟨2024, 3, 31⟩, true⟩], []⟩
      ⟨[⟨1, 1, 2, ⟨2024, 3, 1⟩, ⟨2024, 3, 31⟩, true⟩],
       [⟨9, 1, some 1, ⟨2024, 3, 10, 0, 0, 0, 0, true⟩⟩]⟩
      2 ⟨2024, 3, 10⟩
      [⟨1, 1, 2, ⟨2024, 3, 1⟩, ⟨2024, 3, 31⟩, true⟩]
      [⟨9, 1, some 1, ⟨2024, 3, 10, 0, 0, 0, 0, true⟩⟩]
      (by decide) (by decide) rfl rfl⟩

/-- C6: adding a transaction linked to a distinct WEEKLY schedule B does
not change whether the DAILY schedule A is returned. -/
theorem C6_frequency_isolation (store store2 : Store)
    (A B : TransactionScheduled) (txB : Transaction) (today : Date)
    (lA lA2 : List TransactionScheduled)
    (hAf : A.frequency_id = Frequency.DAILY)
    (hBf : B.frequency_id = Frequency.WEEKLY)
    (hne : A.id ≠ B.id)
    (htx : txB.scheduled_transaction_id = some B.id)
    (hs : store2.scheduled = store.scheduled)
    (ht : store2.transactions = store.transactions ++ [txB])
    (hq : get_scheduled_transactions_by_frequency store Frequency.DAILY today =
      some lA)
    (hq2 : get_scheduled_transactions_by_frequency store2 Frequency.DAILY today =
      some lA2) :
    (A ∈ lA ↔ A ∈ lA2) := by
  have hp : get_period_start_date Frequency.DAILY today = some today := rfl
  rw [mem_get_scheduled hp hq A, mem_get_scheduled hp hq2 A, hs, ht]
  have heq : occurrence_check (store.transactions ++ [txB]) A.id today today =
      occurrence_check store.transactions A.id today today := by
    unfold occurrence_check
    rw [List.any_append]
    have hone : (List.any [txB] fun t =>
        t.scheduled_transaction_id == some A.id &&
        t.created_at.toDate == today &&
        Date.le today t.created_at.toDate) = false := by
      have hid : (txB.scheduled_transaction_id == some A.id) = false := by
        rw [htx]
        simp only [beq_eq_false_iff_ne, ne_eq, Option.some.injEq]
        exact fun h => hne h.symm
      simp [hid]
    rw [hone, Bool.or_false]
  rw [heq]

/-- Witness for C6: DAILY schedule A stays due after a transaction for the
WEEKLY schedule B is added on the same day for the same account. -/
theorem C6_frequency_isolation_witness :
    get_scheduled_transactions_by_frequency
        ⟨[⟨1, 1, 2, ⟨2024, 3, 1⟩, ⟨2024, 3, 31⟩, true⟩,
          ⟨2, 1, 3, ⟨2024, 1, 1⟩, ⟨2024, 12, 31⟩, true⟩], []⟩ 2 ⟨2024, 3, 10⟩ =
      some [⟨1, 1, 2, ⟨2024, 3, 1⟩, ⟨2024, 3, 31⟩, true⟩] ∧
    get_scheduled_transactions_by_frequency
        ⟨[⟨1, 1, 2, ⟨2024, 3, 1⟩, ⟨2024, 3, 31⟩, true⟩,
          ⟨2, 1, 3, ⟨2024, 1, 1⟩, ⟨2024, 12, 31⟩, true⟩],
         [⟨9, 1, some 2, ⟨2024, 3, 10, 0, 0, 0, 0, true⟩⟩]⟩ 2 ⟨2024, 3, 10⟩ =
      some [⟨1, 1, 2, ⟨2024, 3, 1⟩, ⟨2024, 3, 31⟩, true⟩] ∧
    ((⟨1, 1, 2, ⟨2024, 3, 1⟩, ⟨2024, 3, 31⟩, true⟩ : TransactionScheduled) ∈
        [(⟨1, 1, 2, ⟨2024, 3, 1⟩, ⟨2024, 3, 31⟩, true⟩ : TransactionScheduled)] ↔
      (⟨1, 1, 2, ⟨2024, 3, 1⟩, ⟨2024, 3, 31⟩, true⟩ : TransactionScheduled) ∈
        [(⟨1, 1, 2, ⟨2024, 3, 1⟩, ⟨2024, 3, 31⟩, true⟩ : TransactionScheduled)]) :=
  ⟨by decide, by decide,
    C6_frequency_isolation
      ⟨[⟨1, 1, 2, ⟨2024, 3, 1⟩, ⟨2024, 3, 31⟩, true⟩,
        ⟨2, 1, 3, ⟨2024, 1, 1⟩, ⟨2024, 12, 31⟩, true⟩], []⟩
      ⟨[⟨1, 1, 2, ⟨2024, 3, 1⟩, ⟨2024, 3, 31⟩, true⟩,
        ⟨2, 1, 3, ⟨2024, 1, 1⟩, ⟨2024, 12, 31⟩, true⟩],
       [⟨9, 1, some 2, ⟨2024, 3, 10, 0, 0, 0, 0, true⟩⟩]⟩
      ⟨1, 1, 2, ⟨2024, 3, 1⟩, ⟨2024, 3, 31⟩, true⟩
      ⟨2, 1, 3, ⟨2024, 1, 1⟩, ⟨2024, 12, 31⟩, true⟩
      ⟨9, 1, some 2, ⟨2024, 3, 10, 0, 0, 0, 0, true⟩⟩
      ⟨2024, 3, 10⟩
      [⟨1, 1, 2, ⟨2024, 3, 1⟩, ⟨2024, 3, 31⟩, true⟩]
      [⟨1, 1, 2, ⟨2024, 3, 1⟩, ⟨2024, 3, 31⟩, true⟩]
      rfl rfl (by decide) rfl rfl rfl (by decide) (by decide)⟩

/-- C10: a frequency id outside the enum falls through the match, so the
period start is `today`, the call does not fail, and the result filters by
the unknown id with the DAILY-style existence bound. -/
theorem C10_unknown_frequency (fid : Nat)
    (h1 : fid ≠ Frequency.ONCE) (h2 : fid ≠ Frequency.DAILY)
    (h3 : fid ≠ Frequency.WEEKLY) (h4 : fid ≠ Frequency.MONTHLY)
    (h5 : fid ≠ Frequency.YEARLY) (store : Store) (today : Date) :
    get_period_start_date fid today = some today ∧
    ∃ l, get_scheduled_transactions_by_frequency store fid today = some l ∧
      ∀ S, S ∈ l ↔ S ∈ store.scheduled ∧ Date.le S.date_start today = true ∧
        Date.le today S.date_end = true ∧ S.is_active = true ∧
        S.frequency_id = fid ∧
        occurrence_check store.transactions S.id today today = false := by
  have hp : get_period_start_date fid today = some today := by
    simp [get_period_start_date, h1, h2, h3, h4, h5]
  exact ⟨hp, _, get_scheduled_eq hp, fun S => mem_get_scheduled hp (get_scheduled_eq hp) S⟩

/-- Witness for C10 at the unknown frequency id 7. -/
theorem C10_unknown_frequency_witness :
    ((7 : Nat) ≠ Frequency.ONCE ∧ (7 : Nat) ≠ Frequency.DAILY ∧
     (7 : Nat) ≠ Frequency.WEEKLY ∧ (7 : Nat) ≠ Frequency.MONTHLY ∧
     (7 : Nat) ≠ Frequency.YEARLY) ∧
    (get_period_start_date 7 ⟨2024, 3, 10⟩ = some ⟨2024, 3, 10⟩ ∧
     ∃ l, get_scheduled_transactions_by_frequency
         ⟨[⟨1, 1, 7, ⟨2024, 3, 1⟩, ⟨2024, 3, 31⟩, true⟩], []⟩ 7 ⟨2024, 3, 10⟩ =
       some l ∧
       ∀ S, S ∈ l ↔
         S ∈ [(⟨1, 1, 7, ⟨2024, 3, 1⟩, ⟨2024, 3, 31⟩, true⟩ : TransactionScheduled)] ∧
         Date.le S.date_start ⟨2024, 3, 10⟩ = true ∧
         Date.le ⟨2024, 3, 10⟩ S.date_end = true ∧ S.is_active = true ∧
         S.frequency_id = 7 ∧
         occurrence_check [] S.id ⟨2024, 3, 10⟩ ⟨2024, 3, 10⟩ = false) :=
  ⟨by decide,
    C10_unknown_frequency 7 (by decide) (by decide) (by decide) (by decide)
      (by decide) ⟨[⟨1, 1, 7, ⟨2024, 3, 1⟩, ⟨2024, 3, 31⟩, true⟩], []⟩
      ⟨2024, 3, 10⟩⟩

/-! Failure domain of the period-start computation (claim C9). -/

/-- The query fails exactly when the period-start computation fails. -/
theorem get_scheduled_none_iff (store : Store) (fid : Nat) (today : Date) :
    get_scheduled_transactions_by_frequency store fid today = none ↔
      get_period_start_date fid today = none := by
  unfold get_scheduled_transactions_by_frequency
  cases h : get_period_start_date fid today <;> simp

/-- On a valid date, `pred` fails exactly at `datetime.min` (0001-01-01). -/
theorem Date.pred_eq_none_iff {d : Date} (hv : d.isValid = true) :
    Date.pred d = none ↔ d = ⟨1, 1, 1⟩ := by
  obtain ⟨y, m, dd⟩ := d
  simp only [Date.isValid, Bool.and_eq_true, decide_eq_true_eq] at hv
  simp only [Date.pred]
  constructor
  · intro h
    split at h
    · cases h
    · split at h
      · cases h
      · split at h
        · cases h
        · simp only [Date.mk.injEq]
          omega
  · intro h
    injection h with h1 h2 h3
    subst h1; subst h2; subst h3
    norm_num

/-- A valid date at or after 0001-01-(n+2) supports one backward day step
staying at or after 0001-01-(n+1), for n up to 27. -/
theorem Date.pred_stays_above {d : Date} {n : Nat} (hn : n ≤ 27)
    (hv : d.isValid = true) (hle : Date.le ⟨1, 1, n + 2⟩ d = true) :
    ∃ e, Date.pred d = some e ∧ e.isValid = true ∧
      Date.le ⟨1, 1, n + 1⟩ e = true := by
  obtain ⟨y, m, dd⟩ := d
  have hv' := hv
  simp only [Date.isValid, Bool.and_eq_true, decide_eq_true_eq] at hv'
  simp [Date.le] at hle
  cases hpred : Date.pred ⟨y, m, dd⟩ with
  | none =>
    rw [Date.pred_eq_none_iff hv] at hpred
    injection hpred with h1 h2 h3
    omega
  | some e =>
    obtain ⟨hev, _⟩ := Date.pred_succ hv hpred
    refine ⟨e, rfl, hev, ?_⟩
    simp only [Date.pred] at hpred
    split at hpred
    · injection hpred with hpred
      subst hpred
      simp [Date.le]
      omega
    · split at hpred
      · injection hpred with hpred
        subst hpred
        have h28 := daysInMonth_pos y (m - 1)
        simp [Date.le]
        omega
      · split at hpred
        · injection hpred with hpred
          subst hpred
          simp [Date.le]
          omega
        · cases hpred

/-- A valid date at or after 0001-01-(n+1) supports `n` backward day
steps, for n up to 28. -/
theorem Date.subDays_isSome {n : Nat} (hn : n ≤ 28) :
    ∀ d : Date, d.isValid = true → Date.le ⟨1, 1, n + 1⟩ d = true →
      (d.subDays n).isSome = true := by
  induction n with
  | zero => intro d _ _; simp [Date.subDays]
  | succ k ih =>
    intro d hv hle
    obtain ⟨e, hpred, hev, hele⟩ :=
      @Date.pred_stays_above d k (by omega) hv hle
    have := ih (by omega) e hev hele
    simp only [Date.subDays, hpred, Option.bind_some]
    exact this

/-- Month lengths of months other than February do not depend on the year. -/
theorem daysInMonth_ne_two {m : Nat} (y y' : Nat) (hm : m ≠ 2) :
    daysInMonth y m = daysInMonth y' m := by
  simp [daysInMonth, hm]

/-- A leap year is never preceded by a leap year. -/
theorem isLeapYear_pred {y : Nat} (hy : 1 ≤ y) (h : isLeapYear y = true) :
    isLeapYear (y - 1) = false := by
  simp only [isLeapYear, Bool.or_eq_true, Bool.and_eq_true, beq_iff_eq,
    bne_iff_ne, ne_eq, Bool.or_eq_false_iff, Bool.and_eq_false_iff,
    beq_eq_false_iff_ne] at h ⊢
  omega

/-- MONTHLY period start fails on a valid date exactly in January or when
the day-of-month does not exist in the previous month. -/
theorem period_start_monthly_none_iff {today : Date} (hv : today.isValid = true) :
    get_period_start_date Frequency.MONTHLY today = none ↔
      today.month = 1 ∨ daysInMonth today.year (today.month - 1) < today.day := by
  obtain ⟨y, m, dd⟩ := today
  simp only [Date.isValid, Bool.and_eq_true, decide_eq_true_eq] at hv
  simp [get_period_start_date, Frequency.MONTHLY, Frequency.WEEKLY,
    Frequency.DAILY, Frequency.ONCE, Date.replaceMonth, Date.isValid]
  omega

/-- YEARLY period start fails on a valid date exactly on February 29 or in
year 1 (MINYEAR). -/
theorem period_start_yearly_none_iff {today : Date} (hv : today.isValid = true) :
    get_period_start_date Frequency.YEARLY today = none ↔
      today.year = 1 ∨ (today.month = 2 ∧ today.day = 29) := by
  obtain ⟨y, m, dd⟩ := today
  simp only [Date.isValid, Bool.and_eq_true, decide_eq_true_eq] at hv
  simp [get_period_start_date, Frequency.YEARLY, Frequency.MONTHLY,
    Frequency.WEEKLY, Frequency.DAILY, Frequency.ONCE, Date.replaceYear,
    Date.isValid]
  by_cases hm : m = 2
  · subst hm
    by_cases hl : isLeapYear y = true
    · have hy1 : 1 ≤ y := by omega
      have hA : daysInMonth y 2 = 29 := by simp [daysInMonth, hl]
      have hB : daysInMonth (y - 1) 2 = 28 := by
        simp [daysInMonth, isLeapYear_pred hy1 hl]
      omega
    · have hA : daysInMonth y 2 = 28 := by
        simp only [Bool.not_eq_true] at hl
        simp [daysInMonth, hl]
      have hB := daysInMonth_pos (y - 1) 2
      omega
  · have hAB := daysInMonth_ne_two y (y - 1) hm
    omega

/-- Projection reduction for date literals. -/
theorem Date.year_mk (y m d : Nat) : (Date.mk y m d).year = y := rfl

/-- Projection reduction for date literals. -/
theorem Date.month_mk (y m d : Nat) : (Date.mk y m d).month = m := rfl

/-- Projection reduction for date literals. -/
theorem Date.day_mk (y m d : Nat) : (Date.mk y m d).day = d := rfl

/-- WEEKLY period start fails on a valid date exactly in the first seven
days of year 1 (the subtraction would leave the supported range). -/
theorem period_start_weekly_none_iff {today : Date} (hv : today.isValid = true) :
    get_period_start_date Frequency.WEEKLY today = none ↔
      today.year = 1 ∧ today.month = 1 ∧ today.day ≤ 7 := by
  obtain ⟨y, m, dd⟩ := today
  constructor
  · intro h
    by_contra hcon
    have hv' := hv
    simp only [Date.isValid, Bool.and_eq_true, decide_eq_true_eq,
      Date.year_mk, Date.month_mk, Date.day_mk] at hv' hcon
    have hle : Date.le ⟨1, 1, 8⟩ ⟨y, m, dd⟩ = true := by
      simp [Date.le]
      omega
    have hsome := @Date.subDays_isSome 7 (by omega) ⟨y, m, dd⟩ hv hle
    simp [get_period_start_date, Frequency.WEEKLY, Frequency.DAILY,
      Frequency.ONCE] at h
    rw [h] at hsome
    simp at hsome
  · rintro ⟨h1, h2, h3⟩
    change y = 1 at h1
    change m = 1 at h2
    change dd ≤ 7 at h3
    subst h1
    subst h2
    simp only [Date.isValid, Bool.and_eq_true, decide_eq_true_eq] at hv
    have hd1 : 1 ≤ dd := by omega
    interval_cases dd <;> decide

/-- C9 counterexample: for frequency YEARLY and the valid date 0001-03-01
— not a February 29 — the claim asserts the computation succeeds, yet the
call returns no list (`today.replace(year=0)` raises ValueError:
year 0 is below MINYEAR). -/
theorem C9_undefined_dates_counterexample :
    (⟨1, 3, 1⟩ : Date).isValid = true ∧
    ¬((⟨1, 3, 1⟩ : Date).month = 2 ∧ (⟨1, 3, 1⟩ : Date).day = 29) ∧
    get_scheduled_transactions_by_frequency ⟨[], []⟩ Frequency.YEARLY
      ⟨1, 3, 1⟩ = none := by
  decide

/-- C9 (amended): the call returns no list exactly when frequency = WEEKLY
and today is within the first 7 days of year 1, or frequency = MONTHLY and
today is in January or its day-of-month does not exist in the previous
month, or frequency = YEARLY and today is February 29 or is in year 1; for
every other frequency id the call never fails. -/
theorem C9_undefined_dates_amended (store : Store) (today : Date)
    (hv : today.isValid = true) :
    (get_scheduled_transactions_by_frequency store Frequency.WEEKLY today =
        none ↔ today.year = 1 ∧ today.month = 1 ∧ today.day ≤ 7) ∧
    (get_scheduled_transactions_by_frequency store Frequency.MONTHLY today =
        none ↔
      today.month = 1 ∨ daysInMonth today.year (today.month - 1) < today.day) ∧
    (get_scheduled_transactions_by_frequency store Frequency.YEARLY today =
        none ↔ today.year = 1 ∨ (today.month = 2 ∧ today.day = 29)) ∧
    (∀ fid, fid ≠ Frequency.WEEKLY → fid ≠ Frequency.MONTHLY →
      fid ≠ Frequency.YEARLY →
      get_scheduled_transactions_by_frequency store fid today ≠ none) := by
  refine ⟨?_, ?_, ?_, ?_⟩
  · rw [get_scheduled_none_iff]
    exact period_start_weekly_none_iff hv
  · rw [get_scheduled_none_iff]
    exact period_start_monthly_none_iff hv
  · rw [get_scheduled_none_iff]
    exact period_start_yearly_none_iff hv
  · intro fid hA hB hC
    rw [ne_eq, get_scheduled_none_iff]
    by_cases h1 : fid = Frequency.DAILY ∨ fid = Frequency.ONCE
    · simp [get_period_start_date, h1]
    · simp [get_period_start_date, h1, hA, hB, hC]

/-- Witness for the amended C9 at today = 2024-03-31: MONTHLY fails
(February has no day 31), YEARLY and WEEKLY succeed. -/
theorem C9_undefined_dates_amended_witness :
    (⟨2024, 3, 31⟩ : Date).isValid = true ∧
    ((get_scheduled_transactions_by_frequency ⟨[], []⟩ Frequency.WEEKLY
        ⟨2024, 3, 31⟩ = none ↔ (2024 : Nat) = 1 ∧ (3 : Nat) = 1 ∧ (31 : Nat) ≤ 7) ∧
     (get_scheduled_transactions_by_frequency ⟨[], []⟩ Frequency.MONTHLY
        ⟨2024, 3, 31⟩ = none ↔
       (3 : Nat) = 1 ∨ daysInMonth 2024 (3 - 1) < 31) ∧
     (get_scheduled_transactions_by_frequency ⟨[], []⟩ Frequency.YEARLY
        ⟨2024, 3, 31⟩ = none ↔
       (2024 : Nat) = 1 ∨ ((3 : Nat) = 2 ∧ (31 : Nat) = 29)) ∧
     (∀ fid, fid ≠ Frequency.WEEKLY → fid ≠ Frequency.MONTHLY →
       fid ≠ Frequency.YEARLY →
       get_scheduled_transactions_by_frequency ⟨[], []⟩ fid ⟨2024, 3, 31⟩ ≠
         none)) :=
  ⟨by decide, C9_undefined_dates_amended ⟨[], []⟩ ⟨2024, 3, 31⟩ (by decide)⟩
